import Mathlib

/-!
Shallow embedding of the risk-control module (`src/utils/riskControl.ts`,
v2 version) of the nof1.ai trading system, together with proofs about the
circuit-breaker state machine, the anomaly detectors and the comprehensive
risk gate.

Modelling conventions:
* Timestamps are milliseconds as `Int` (the value of `Date.getTime()`).
  A `resume_at` column that does not parse as a timestamp (`new Date(s)`
  gives `NaN`) is modelled as `none`; a parsable one as `some t`.
* The nullable `cooldown_until` column is `Option (Option Int)`:
  `none` is SQL NULL, `some none` is a non-null unparsable text,
  `some (some t)` parses to instant `t`.
* Money and percentages are `ℚ` (the code uses JS numbers; no claim in
  scope depends on float rounding).
* The table `circuit_breaker_log` is a `List CBRecord`; `ORDER BY
  triggered_at DESC LIMIT 1` is the maximum by `triggeredAt` (first row
  wins ties), `LIMIT 5` is `take 5` of a descending sort.
* The schema-migration helpers (`ensureTableSchema`, the
  `hasCooldownField` backfill inside `getActiveCircuitBreaker`) only act
  on legacy databases missing columns; the model assumes the modern
  schema, where those branches are no-ops.
* `todayStart` (local midnight, `new Date(y, m, d)`) is passed as an
  explicit parameter rather than derived from a calendar model.
* Free-text reasons keep the source template text but abstract the
  embedded `toFixed` number formatting.
-/

namespace RiskControl

/-- Status column of a `circuit_breaker_log` row. -/
inductive CBStatus
  | active
  | expired
  | manuallyReset
deriving DecidableEq, Repr

/-- One row of `circuit_breaker_log`. -/
structure CBRecord where
  reason : String
  triggeredAt : Int
  resumeAt : Option Int
  status : CBStatus
  severityLevel : Nat
  cooldownUntil : Option (Option Int)
  triggerType : String
deriving DecidableEq, Repr

/-- One row of the `trades` table (fields this module reads). -/
structure Trade where
  symbol : String
  type : String
  pnl : ℚ
  timestamp : Int
deriving DecidableEq, Repr

/-- One row of `account_history`. -/
structure AccountRow where
  totalValue : ℚ
  timestamp : Int
deriving DecidableEq, Repr

/-- The persistent store visible to the risk-control module. `signals`
gives, per symbol, the newest-first price history of `trading_signals`. -/
structure Store where
  breakerLog : List CBRecord
  trades : List Trade
  accountHistory : List AccountRow
  signals : String → List ℚ

/-- Milliseconds in one hour. -/
def msPerHour : Int := 3600000

/-- First element with maximal key: `ORDER BY key DESC LIMIT 1`. -/
def latestBy (f : α → Int) : List α → Option α
  | [] => none
  | a :: as =>
    match latestBy f as with
    | none => some a
    | some b => if f b > f a then some b else some a

/-- Insert into a list kept in descending key order (stable). -/
def insertDescBy (f : α → Int) (a : α) : List α → List α
  | [] => [a]
  | b :: bs => if f a > f b then a :: b :: bs else b :: insertDescBy f a bs

/-- Stable sort by descending key: `ORDER BY key DESC`. -/
def sortDescBy (f : α → Int) (l : List α) : List α :=
  l.foldr (insertDescBy f) []

/-- Result type of the anomaly detectors. Severity is one of
"low" / "medium" / "high", as in the source union type. -/
structure AnomalyCheck where
  isAnomalous : Bool
  reason : Option String := none
  severity : String
deriving DecidableEq, Repr

/-- `getDynamicStopLoss`: leverage-dependent stop-loss percentage. -/
def getDynamicStopLoss (leverage : ℚ) : ℚ :=
  if leverage ≥ 20 then -15
  else if leverage ≥ 15 then -18
  else if leverage ≥ 10 then -22
  else if leverage ≥ 5 then -25
  else -30

/-- Latest `account_history.total_value`, defaulting to 1000 when the
table is empty (source lines 78-84). -/
def latestTotalValue (s : Store) : ℚ :=
  match latestBy (fun r => r.timestamp) s.accountHistory with
  | some row => row.totalValue
  | none => 1000

/-- `detectAnomalousPosition` (source lines 71-121). The numeric
interpolations inside the reason strings are abstracted. -/
def detectAnomalousPosition (s : Store) (_symbol : String)
    (newAmountUsdt leverage : ℚ) : AnomalyCheck :=
  let totalBalance := latestTotalValue s
  let positionPercent := newAmountUsdt / totalBalance * 100
  let effectiveExposure := positionPercent * leverage
  if positionPercent > 50 then
    { isAnomalous := true, reason := some "单笔仓位过大：超过账户50%",
      severity := "high" }
  else if effectiveExposure > 200 then
    { isAnomalous := true, reason := some "有效风险敞口过大",
      severity := "high" }
  else if leverage ≥ 15 ∧ positionPercent > 30 then
    { isAnomalous := true, reason := some "高杠杆 + 大仓位 组合风险过高",
      severity := "medium" }
  else
    { isAnomalous := false, severity := "low" }

/-- `detectFrequentTrading` (source lines 126-154): count of open-type
trades for the symbol in the trailing hour. -/
def detectFrequentTrading (now : Int) (s : Store) (symbol : String) :
    AnomalyCheck :=
  let oneHourAgo := now - msPerHour
  let tradeCount := (s.trades.filter (fun t =>
    decide (t.symbol = symbol ∧ t.timestamp ≥ oneHourAgo ∧
      t.type = "open"))).length
  if tradeCount ≥ 3 then
    { isAnomalous := true, reason := some "最近1小时开仓过多，交易过于频繁",
      severity := "medium" }
  else
    { isAnomalous := false, severity := "low" }

/-- Result of a circuit-breaker check (interface `CircuitBreakerStatus`). -/
structure CircuitBreakerStatus where
  shouldHalt : Bool
  reason : Option String := none
  resumeTime : Option Int := none
  severityLevel : Option Nat := none
  isInCooldown : Option Bool := none
  cooldownUntil : Option Int := none
deriving DecidableEq, Repr

/-- `UPDATE circuit_breaker_log SET status = expired WHERE status = active`. -/
def demote (log : List CBRecord) : List CBRecord :=
  log.map (fun r =>
    if r.status = CBStatus.active then { r with status := CBStatus.expired } else r)

/-- The store after demoting every active row to expired. -/
def demoteStore (s : Store) : Store :=
  { s with breakerLog := demote s.breakerLog }

/-- `recordCircuitBreaker` (source lines 228-280): demote all active rows,
then insert the new active row; its cooldown ends 6 hours after resume. -/
def recordCircuitBreaker (now : Int) (reason : String) (resumeTime : Int)
    (severityLevel : Nat) (triggerType : String) (s : Store) : Store :=
  let cooldownUntil := resumeTime + 6 * msPerHour
  { s with breakerLog := demote s.breakerLog ++
    [{ reason := reason, triggeredAt := now, resumeAt := some resumeTime,
       status := CBStatus.active, severityLevel := severityLevel,
       cooldownUntil := some (some cooldownUntil), triggerType := triggerType }] }

/-- The latest active row (`WHERE status = active ORDER BY triggered_at
DESC LIMIT 1`). -/
def latestActive (s : Store) : Option CBRecord :=
  latestBy (fun r => r.triggeredAt)
    (s.breakerLog.filter (fun r => decide (r.status = CBStatus.active)))

/-- JS `Number(x) || 1`: a zero (or missing) severity level reads as 1. -/
def sevOr1 (n : Nat) : Nat := if n = 0 then 1 else n

/-- `getActiveCircuitBreaker` (source lines 285-385). An unparsable
`resume_at` keeps the breaker halted with a fallback resume time 2 hours
out; a past `resume_at` demotes every active row and reports no breaker. -/
def getActiveCircuitBreaker (now : Int) (s : Store) :
    Option CircuitBreakerStatus × Store :=
  match latestActive s with
  | none => (none, s)
  | some row =>
    match row.resumeAt with
    | none =>
      (some { shouldHalt := true, reason := some row.reason,
              resumeTime := some (now + 2 * msPerHour),
              severityLevel := some (sevOr1 row.severityLevel) }, s)
    | some resumeTime =>
      if resumeTime ≤ now then
        (none, demoteStore s)
      else
        (some { shouldHalt := true, reason := some row.reason,
                resumeTime := some resumeTime,
                severityLevel := some (sevOr1 row.severityLevel) }, s)

/-- Result of `isInCooldownPeriod`. -/
structure CooldownInfo where
  inCooldown : Bool
  cooldownUntil : Option Int := none
  severityLevel : Option Nat := none
deriving DecidableEq, Repr

/-- `isInCooldownPeriod` (source lines 390-445): latest expired or
manually-reset row with non-null `cooldown_until`; in cooldown exactly
when that instant is still in the future (unparsable text reads as not
in cooldown). -/
def isInCooldownPeriod (now : Int) (s : Store) : CooldownInfo :=
  let rows := s.breakerLog.filter (fun r =>
    decide ((r.status = CBStatus.expired ∨ r.status = CBStatus.manuallyReset) ∧
      r.cooldownUntil ≠ none))
  match latestBy (fun r => r.triggeredAt) rows with
  | none => { inCooldown := false }
  | some row =>
    match row.cooldownUntil with
    | some (some cu) =>
      if now < cu then
        { inCooldown := true, cooldownUntil := some cu,
          severityLevel := some (sevOr1 row.severityLevel) }
      else { inCooldown := false }
    | _ => { inCooldown := false }

/-- `getCurrentSeverityLevel` (source lines 451-507): trigger count and
maximal level over the trailing 24 hours. Both long-term branches of the
source return 1, so the 72-hour query is behaviourally a constant. -/
def getCurrentSeverityLevel (now : Int) (s : Store) : Nat :=
  let rows := s.breakerLog.filter (fun r =>
    decide (r.triggeredAt ≥ now - 24 * msPerHour))
  let cnt := rows.length
  let maxLevel := sevOr1 ((rows.map (fun r => r.severityLevel)).foldl max 0)
  if cnt ≥ 3 then min (maxLevel + 1) 4
  else if cnt ≥ 2 then min maxLevel 3
  else if cnt ≥ 1 then maxLevel
  else 1

/-- `resetCircuitBreaker` (source lines 512-534): every active row
becomes manually-reset; the call reports success either way. -/
def resetCircuitBreaker (s : Store) : Bool × Store :=
  (true, { s with breakerLog := s.breakerLog.map (fun r =>
    if r.status = CBStatus.active then { r with status := CBStatus.manuallyReset }
    else r) })

/-- Close-type trades ordered newest first. -/
def closeTradesDesc (s : Store) : List Trade :=
  sortDescBy (fun t => t.timestamp) (s.trades.filter (fun t => decide (t.type = "close")))

/-- `SELECT SUM(pnl) FROM trades WHERE timestamp >= t0 AND type = close`
(an empty sum reads as 0, like the `|| "0"` fallback). -/
def sumPnlSince (t0 : Int) (s : Store) : ℚ :=
  ((s.trades.filter (fun t => decide (t.timestamp ≥ t0 ∧ t.type = "close"))).map
    (fun t => t.pnl)).sum

/-- The no-trigger return value (source lines 822-836): carries the
cooldown data exactly when in cooldown. -/
def noTriggerResult (cooldownStatus : CooldownInfo)
    (effectiveSeverityLevel : Nat) (s : Store) : CircuitBreakerStatus × Store :=
  if cooldownStatus.inCooldown then
    ({ shouldHalt := false, isInCooldown := some true,
       cooldownUntil := cooldownStatus.cooldownUntil,
       severityLevel := some effectiveSeverityLevel }, s)
  else ({ shouldHalt := false }, s)

/-- Condition 4, single large loss (source lines 785-820), followed by
the no-trigger epilogue. -/
def singleLossCheck (now : Int) (cooldownStatus : CooldownInfo)
    (effectiveSeverityLevel : Nat) (totalBalance thresholdMultiplier : ℚ)
    (s : Store) : CircuitBreakerStatus × Store :=
  match (closeTradesDesc s).head? with
  | none => noTriggerResult cooldownStatus effectiveSeverityLevel s
  | some t =>
    let lastLossPercent := t.pnl / totalBalance * 100
    let singleLossThreshold := -3 * thresholdMultiplier
    if lastLossPercent < singleLossThreshold then
      let duration := 1 * msPerHour * 2 ^ (effectiveSeverityLevel - 1)
      let resumeTime := now + duration
      let reason := "单笔巨额亏损，触发熔断保护 (等级" ++
        toString effectiveSeverityLevel ++ ")"
      ({ shouldHalt := true, reason := some reason,
         resumeTime := some resumeTime,
         severityLevel := some effectiveSeverityLevel },
       recordCircuitBreaker now reason resumeTime effectiveSeverityLevel
         "single_large_loss" s)
    else noTriggerResult cooldownStatus effectiveSeverityLevel s

/-- Condition 3, consecutive loss (source lines 739-783), falling through
to condition 4. The source computes `requiredLossCount = inCooldown ? 3 :
5` but never uses it in the trigger condition: the check always looks at
5 fetched rows. -/
def consecutiveLossCheck (now : Int) (cooldownStatus : CooldownInfo)
    (effectiveSeverityLevel : Nat) (totalBalance thresholdMultiplier : ℚ)
    (s : Store) : CircuitBreakerStatus × Store :=
  let recent := (closeTradesDesc s).take 5
  if recent.length ≥ 5 then
    let allLoss := recent.all (fun t => decide (t.pnl < 0))
    let oldestT := match recent[4]? with
      | some t => t.timestamp
      | none => 0
    let timeSpanHours : ℚ := ((now - oldestT : Int) : ℚ) / 3600000
    if allLoss ∧ timeSpanHours ≤ 4 then
      let duration := 2 * msPerHour * 2 ^ (effectiveSeverityLevel - 1)
      let resumeTime := now + duration
      let reason := "4小时内连续亏损，触发熔断保护 (等级" ++
        toString effectiveSeverityLevel ++ ")"
      ({ shouldHalt := true, reason := some reason,
         resumeTime := some resumeTime,
         severityLevel := some effectiveSeverityLevel },
       recordCircuitBreaker now reason resumeTime effectiveSeverityLevel
         "consecutive_loss" s)
    else
      singleLossCheck now cooldownStatus effectiveSeverityLevel totalBalance
        thresholdMultiplier s
  else
    singleLossCheck now cooldownStatus effectiveSeverityLevel totalBalance
      thresholdMultiplier s

/-- Conditions 1, 2.1 and 2.2 (source lines 618-737): daily loss, then
the 1-hour and 4-hour window losses, each against its base threshold
times the cooldown multiplier, falling through to conditions 3 and 4. -/
def evalLossTriggers (now todayStart : Int) (cooldownStatus : CooldownInfo)
    (effectiveSeverityLevel : Nat) (s : Store) : CircuitBreakerStatus × Store :=
  let totalBalance := latestTotalValue s
  let thresholdMultiplier : ℚ := if cooldownStatus.inCooldown then 1/2 else 1
  let todayPnl := sumPnlSince todayStart s
  let dailyLossPercent := todayPnl / totalBalance * 100
  let dailyLossThreshold := -15 * thresholdMultiplier
  if dailyLossPercent < dailyLossThreshold then
    let duration := 12 * msPerHour * 2 ^ (effectiveSeverityLevel - 1)
    let resumeTime := now + duration
    let reason := "单日亏损，触发熔断保护 (等级" ++
      toString effectiveSeverityLevel ++ ")"
    ({ shouldHalt := true, reason := some reason,
       resumeTime := some resumeTime,
       severityLevel := some effectiveSeverityLevel },
     recordCircuitBreaker now reason resumeTime effectiveSeverityLevel
       "daily_loss" s)
  else
    let hourlyPnl := sumPnlSince (now - msPerHour) s
    let hourlyLossPercent := hourlyPnl / totalBalance * 100
    let hourlyLossThreshold := -5 * thresholdMultiplier
    if hourlyLossPercent < hourlyLossThreshold then
      let duration := 2 * msPerHour * 2 ^ (effectiveSeverityLevel - 1)
      let resumeTime := now + duration
      let reason := "1小时内亏损，触发熔断保护 (等级" ++
        toString effectiveSeverityLevel ++ ")"
      ({ shouldHalt := true, reason := some reason,
         resumeTime := some resumeTime,
         severityLevel := some effectiveSeverityLevel },
       recordCircuitBreaker now reason resumeTime effectiveSeverityLevel
         "hourly_loss" s)
    else
      let fourHourPnl := sumPnlSince (now - 4 * msPerHour) s
      let fourHourLossPercent := fourHourPnl / totalBalance * 100
      let fourHourLossThreshold := -8 * thresholdMultiplier
      if fourHourLossPercent < fourHourLossThreshold then
        let duration := 4 * msPerHour * 2 ^ (effectiveSeverityLevel - 1)
        let resumeTime := now + duration
        let reason := "4小时内亏损，触发熔断保护 (等级" ++
          toString effectiveSeverityLevel ++ ")"
        ({ shouldHalt := true, reason := some reason,
           resumeTime := some resumeTime,
           severityLevel := some effectiveSeverityLevel },
         recordCircuitBreaker now reason resumeTime effectiveSeverityLevel
           "four_hour_loss" s)
      else
        consecutiveLossCheck now cooldownStatus effectiveSeverityLevel
          totalBalance thresholdMultiplier s

/-- Steps 2-6 of `checkCircuitBreaker` (source lines 557-836), reached
when no active breaker halted the call: cooldown lookup, severity
computation, the two grace periods, then the loss triggers. -/
def evalTriggers (now todayStart : Int) (s : Store) :
    CircuitBreakerStatus × Store :=
  let cooldownStatus := isInCooldownPeriod now s
  let cooldownSeverityLevel := cooldownStatus.severityLevel.getD 1
  let currentSeverityLevel := getCurrentSeverityLevel now s
  let effectiveSeverityLevel := max currentSeverityLevel cooldownSeverityLevel
  let fourHourAgo := now - 4 * msPerHour
  let manualRows := s.breakerLog.filter (fun r =>
    decide (r.status = CBStatus.manuallyReset ∧ r.triggeredAt ≥ fourHourAgo))
  if manualRows ≠ [] then ({ shouldHalt := false }, s)
  else
    let tenMinutesAgo := now - 10 * 60000
    let autoRows := s.breakerLog.filter (fun r =>
      r.status == CBStatus.expired &&
        match r.resumeAt with
        | some rt => decide (rt ≥ tenMinutesAgo)
        | none => false)
    match latestBy (fun r => r.triggeredAt) autoRows with
    | some row =>
      match row.resumeAt with
      | some rt =>
        if now - rt < 10 * 60000 then ({ shouldHalt := false }, s)
        else evalLossTriggers now todayStart cooldownStatus
          effectiveSeverityLevel s
      | none => evalLossTriggers now todayStart cooldownStatus
          effectiveSeverityLevel s
    | none => evalLossTriggers now todayStart cooldownStatus
        effectiveSeverityLevel s

/-- `checkCircuitBreaker` (source lines 545-842): an active breaker is
returned as-is (after possible auto-expiry inside
`getActiveCircuitBreaker`); otherwise the trigger conditions run. -/
def checkCircuitBreaker (now todayStart : Int) (s : Store) :
    CircuitBreakerStatus × Store :=
  let ga := getActiveCircuitBreaker now s
  match ga.1 with
  | some st => (st, ga.2)
  | none => evalTriggers now todayStart ga.2

/-- Sequential period-over-period returns:
`prices.slice(1).map((p, i) => (p - prices[i]) / prices[i])`. -/
def sequentialReturns (prices : List ℚ) : List ℚ :=
  List.zipWith (fun p prev => (p - prev) / prev) prices.tail prices

/-- `calculateCorrelation` (source lines 847-902) on the two fetched
price lists. The square root over the reals (`Math.sqrt`) is passed in
as a parameter `sqrtFn`; the accumulation loop is the fold. -/
def calculateCorrelation (sqrtFn : ℚ → ℚ) (prices1 prices2 : List ℚ) : ℚ :=
  if prices1.length < 30 ∨ prices2.length < 30 then 0
  else
    let returns1 := sequentialReturns prices1
    let returns2 := sequentialReturns prices2
    let n := min returns1.length returns2.length
    if n < 20 then 0
    else
      let r1 := returns1.take n
      let r2 := returns2.take n
      let mean1 := r1.sum / (n : ℚ)
      let mean2 := r2.sum / (n : ℚ)
      let stats := (r1.zip r2).foldl
        (fun (acc : ℚ × ℚ × ℚ) (pq : ℚ × ℚ) =>
          (acc.1 + (pq.1 - mean1) * (pq.2 - mean2),
           acc.2.1 + (pq.1 - mean1) * (pq.1 - mean1),
           acc.2.2 + (pq.2 - mean2) * (pq.2 - mean2)))
        (0, 0, 0)
      let numerator := stats.1
      let sum1 := stats.2.1
      let sum2 := stats.2.2
      let denominator := sqrtFn (sum1 * sum2)
      if denominator = 0 then 0 else numerator / denominator

/-- An open position handed to the correlation risk check. -/
structure Position where
  symbol : String
  side : String
deriving DecidableEq, Repr

/-- `detectCorrelationRisk` (source lines 907-936): walk the open
positions; the first highly correlated same-side one is anomalous. -/
def detectCorrelationRisk (sqrtFn : ℚ → ℚ) (s : Store)
    (newSymbol newSide : String) : List Position → AnomalyCheck
  | [] => { isAnomalous := false, severity := "low" }
  | pos :: rest =>
    let correlation := calculateCorrelation sqrtFn
      ((s.signals newSymbol).take 100) ((s.signals pos.symbol).take 100)
    if |correlation| > 8/10 ∧ pos.side = newSide then
      { isAnomalous := true, reason := some "高度相关，同向持仓风险过高",
        severity := "medium" }
    else detectCorrelationRisk sqrtFn s newSymbol newSide rest

/-- Verdict of `comprehensiveRiskCheck`. -/
structure RiskCheckResult where
  approved : Bool
  warnings : List String
  blockers : List String
deriving DecidableEq, Repr

/-- `comprehensiveRiskCheck` (source lines 941-1002): runs the circuit
breaker first (its verdict is only logged, never a blocker), then the
three detectors; only a high-severity position anomaly blocks. -/
def comprehensiveRiskCheck (sqrtFn : ℚ → ℚ) (now todayStart : Int)
    (symbol side : String) (amountUsdt leverage : ℚ)
    (existingPositions : List Position) (s : Store) :
    RiskCheckResult × Store :=
  let checked := checkCircuitBreaker now todayStart s
  let s1 := checked.2
  let positionAnomaly := detectAnomalousPosition s1 symbol amountUsdt leverage
  let blockers :=
    if positionAnomaly.isAnomalous ∧ positionAnomaly.severity = "high" then
      [positionAnomaly.reason.getD ""]
    else []
  let warnings1 :=
    if positionAnomaly.isAnomalous ∧ positionAnomaly.severity ≠ "high" then
      [positionAnomaly.reason.getD ""]
    else []
  let frequencyAnomaly := detectFrequentTrading now s1 symbol
  let warnings2 :=
    if frequencyAnomaly.isAnomalous then [frequencyAnomaly.reason.getD ""]
    else []
  let correlationRisk := detectCorrelationRisk sqrtFn s1 symbol side
    existingPositions
  let warnings3 :=
    if correlationRisk.isAnomalous then [correlationRisk.reason.getD ""]
    else []
  ({ approved := (blockers.length == 0),
     warnings := warnings1 ++ warnings2 ++ warnings3,
     blockers := blockers }, s1)

/-- Number of active rows in the breaker log. -/
def countActive (s : Store) : Nat :=
  (s.breakerLog.filter (fun r => decide (r.status = CBStatus.active))).length

/-- The at-most-one-active invariant on the breaker log. -/
def atMostOneActive (s : Store) : Prop := countActive s ≤ 1

/-- Trigger types of the active rows, for inspecting freshly created
breaker records. -/
def activeTriggerTypes (s : Store) : List String :=
  (s.breakerLog.filter (fun r => decide (r.status = CBStatus.active))).map
    (fun r => r.triggerType)

/-- One externally invocable mutation of the breaker log. -/
inductive RiskOp
  | check (now todayStart : Int)
  | reset

/-- Run a sequence of check/reset operations against the store. -/
def runOps : List RiskOp → Store → Store
  | [], s => s
  | RiskOp.check n t :: ops, s => runOps ops (checkCircuitBreaker n t s).2
  | RiskOp.reset :: ops, s => runOps ops (resetCircuitBreaker s).2

/-- Latest account balance as an option (none when `account_history` is
empty). -/
def latestBalanceOpt (s : Store) : Option ℚ :=
  (latestBy (fun r => r.timestamp) s.accountHistory).map (fun r => r.totalValue)

/-- Position-size rules as the spec words them (§4.2): balance defaults
to 1000, rules evaluated in order, first match wins; result is the pair
(isAnomalous, severity). -/
def positionRuleSpec (latestBalance : Option ℚ) (notional leverage : ℚ) :
    Bool × String :=
  let balance := latestBalance.getD 1000
  let positionPercent := notional / balance * 100
  let effectiveExposure := positionPercent * leverage
  if positionPercent > 50 then (true, "high")
  else if effectiveExposure > 200 then (true, "high")
  else if 15 ≤ leverage ∧ positionPercent > 30 then (true, "medium")
  else (false, "low")

/-- The correlation computation as the spec words it (§4.2a): the data
guards return 0, otherwise the Pearson coefficient of the first n aligned
returns, the denominator being the product of the square roots of the two
centered sum-of-squares. -/
def pearsonSpec (sqrtFn : ℚ → ℚ) (prices1 prices2 : List ℚ) : ℚ :=
  if prices1.length < 30 ∨ prices2.length < 30 then 0
  else
    let returns1 := sequentialReturns prices1
    let returns2 := sequentialReturns prices2
    let n := min returns1.length returns2.length
    if n < 20 then 0
    else
      let r1 := returns1.take n
      let r2 := returns2.take n
      let mean1 := r1.sum / (n : ℚ)
      let mean2 := r2.sum / (n : ℚ)
      let num := ((r1.zip r2).map
        (fun pq => (pq.1 - mean1) * (pq.2 - mean2))).sum
      let sq1 := (r1.map (fun x => (x - mean1) * (x - mean1))).sum
      let sq2 := (r2.map (fun y => (y - mean2) * (y - mean2))).sum
      let den := sqrtFn sq1 * sqrtFn sq2
      if den = 0 then 0 else num / den

/-- Whether any of the five loss-trigger comparisons of
`checkCircuitBreaker` holds on the store (with the cooldown multiplier
the store itself induces). -/
def triggersFire (now todayStart : Int) (s : Store) : Bool :=
  let m : ℚ := if (isInCooldownPeriod now s).inCooldown then 1/2 else 1
  let totalBalance := latestTotalValue s
  decide (sumPnlSince todayStart s / totalBalance * 100 < -15 * m) ||
  decide (sumPnlSince (now - msPerHour) s / totalBalance * 100 < -5 * m) ||
  decide (sumPnlSince (now - 4 * msPerHour) s / totalBalance * 100 < -8 * m) ||
  (decide (((closeTradesDesc s).take 5).length ≥ 5) &&
   ((closeTradesDesc s).take 5).all (fun t => decide (t.pnl < 0)) &&
   decide ((((now - (match ((closeTradesDesc s).take 5)[4]? with
     | some t => t.timestamp
     | none => 0) : Int) : ℚ) / 3600000) ≤ 4)) ||
  (match (closeTradesDesc s).head? with
   | some t => decide (t.pnl / totalBalance * 100 < -3 * m)
   | none => false)

/-! Concrete stores used by the per-claim witnesses, counterexamples and
scenario theorems. `now` is 36000000 ms (10 h) and `todayStart` 0 in all
of them. -/

/-- A store whose only breaker row is still active (resumes at t=100). -/
def storeActiveW : Store where
  breakerLog := [{ reason := "daily loss breaker", triggeredAt := 10,
                   resumeAt := some 100, status := CBStatus.active,
                   severityLevel := 2, cooldownUntil := some (some 500),
                   triggerType := "daily_loss" }]
  trades := []
  accountHistory := []
  signals := fun _ => []

/-- A store whose only breaker row is active with an unparsable
`resume_at`. -/
def storeMalformedW : Store where
  breakerLog := [{ reason := "stuck breaker", triggeredAt := 10,
                   resumeAt := none, status := CBStatus.active,
                   severityLevel := 3, cooldownUntil := none,
                   triggerType := "hourly_loss" }]
  trades := []
  accountHistory := []
  signals := fun _ => []

/-- In cooldown (expired row, cooldown until t=15h), with five close
trades of -15 each spread between 1h and 5h: the daily loss is exactly
-7.5 percent of the 1000 balance. -/
def storeCooldownExact : Store where
  breakerLog := [{ reason := "cb", triggeredAt := 28800000,
                   resumeAt := some 32400000, status := CBStatus.expired,
                   severityLevel := 1, cooldownUntil := some (some 54000000),
                   triggerType := "daily_loss" }]
  trades := [{ symbol := "BTC", type := "close", pnl := -15, timestamp := 3600000 },
             { symbol := "BTC", type := "close", pnl := -15, timestamp := 7200000 },
             { symbol := "BTC", type := "close", pnl := -15, timestamp := 10800000 },
             { symbol := "BTC", type := "close", pnl := -15, timestamp := 14400000 },
             { symbol := "BTC", type := "close", pnl := -15, timestamp := 18000000 }]
  accountHistory := [{ totalValue := 1000, timestamp := 0 }]
  signals := fun _ => []

/-- Same as `storeCooldownExact` but the daily loss is -8 percent
(five close trades of -16). -/
def storeCooldownOver : Store where
  breakerLog := storeCooldownExact.breakerLog
  trades := [{ symbol := "BTC", type := "close", pnl := -16, timestamp := 3600000 },
             { symbol := "BTC", type := "close", pnl := -16, timestamp := 7200000 },
             { symbol := "BTC", type := "close", pnl := -16, timestamp := 10800000 },
             { symbol := "BTC", type := "close", pnl := -16, timestamp := 14400000 },
             { symbol := "BTC", type := "close", pnl := -16, timestamp := 18000000 }]
  accountHistory := [{ totalValue := 1000, timestamp := 0 }]
  signals := fun _ => []

/-- Same trades as `storeCooldownOver` but the cooldown ended in the past
(cooldown until t=33000000 < now). -/
def storeNoCooldownOver : Store where
  breakerLog := [{ reason := "cb", triggeredAt := 28800000,
                   resumeAt := some 32400000, status := CBStatus.expired,
                   severityLevel := 1, cooldownUntil := some (some 33000000),
                   triggerType := "daily_loss" }]
  trades := storeCooldownOver.trades
  accountHistory := [{ totalValue := 1000, timestamp := 0 }]
  signals := fun _ => []

/-- In cooldown; the three most recent close trades (9.5h, 9h, 8.5h) are
losses and the two before them are wins, all within the last 4 hours. -/
def storeCooldownThreeLosses : Store where
  breakerLog := storeCooldownExact.breakerLog
  trades := [{ symbol := "BTC", type := "close", pnl := -1, timestamp := 34200000 },
             { symbol := "BTC", type := "close", pnl := -1, timestamp := 32400000 },
             { symbol := "BTC", type := "close", pnl := -1, timestamp := 30600000 },
             { symbol := "BTC", type := "close", pnl := 10, timestamp := 28800000 },
             { symbol := "BTC", type := "close", pnl := 10, timestamp := 27000000 }]
  accountHistory := [{ totalValue := 1000, timestamp := 0 }]
  signals := fun _ => []

/-- No breaker rows; a single close trade lost 20 percent of the 1000
balance today. -/
def storeFreshLoss : Store where
  breakerLog := []
  trades := [{ symbol := "BTC", type := "close", pnl := -200, timestamp := 32400000 }]
  accountHistory := [{ totalValue := 1000, timestamp := 0 }]
  signals := fun _ => []

/-- A store with a 1000 balance and no other data. -/
def storeBalance1000 : Store where
  breakerLog := []
  trades := []
  accountHistory := [{ totalValue := 1000, timestamp := 0 }]
  signals := fun _ => []

/-! ## Theorems -/

/-- C5 counterexample: the claimed inequality `getDynamicStopLoss L2 ≤
getDynamicStopLoss L1` for `L1 ≤ L2` fails at leverage 3 versus 25: the
signed percentages are -30 and -15, and -15 is greater. -/
theorem getDynamicStopLoss_not_antitone :
    (3 : ℚ) ≤ 25 ∧ ¬ getDynamicStopLoss 25 ≤ getDynamicStopLoss 3 := by
  constructor
  · norm_num
  · unfold getDynamicStopLoss
    norm_num

/-- C5 amended: the signed stop-loss percentage is non-DEcreasing in the
leverage (its magnitude, the distance to zero, tightens monotonically),
and the five bands change exactly at the breakpoints 5, 10, 15 and 20. -/
theorem getDynamicStopLoss_monotone_bands :
    (∀ L1 L2 : ℚ, L1 ≤ L2 → getDynamicStopLoss L1 ≤ getDynamicStopLoss L2) ∧
    (∀ L : ℚ,
      (getDynamicStopLoss L = -15 ↔ 20 ≤ L) ∧
      (getDynamicStopLoss L = -18 ↔ 15 ≤ L ∧ L < 20) ∧
      (getDynamicStopLoss L = -22 ↔ 10 ≤ L ∧ L < 15) ∧
      (getDynamicStopLoss L = -25 ↔ 5 ≤ L ∧ L < 10) ∧
      (getDynamicStopLoss L = -30 ↔ L < 5)) := by
  constructor
  · intro L1 L2 h
    unfold getDynamicStopLoss
    split_ifs <;> linarith
  · intro L
    unfold getDynamicStopLoss
    refine ⟨?_, ?_, ?_, ?_, ?_⟩ <;>
      split_ifs with h1 h2 h3 h4 <;>
      constructor <;>
      intro hh <;>
      first
        | (refine absurd hh ?_; norm_num; done)
        | (norm_num; done)
        | linarith
        | (refine ⟨?_, ?_⟩ <;> linarith)

/-- C5 witness: monotonicity applied at leverage 3 and 7. -/
theorem getDynamicStopLoss_monotone_bands_witness :
    (3 : ℚ) ≤ 7 ∧ getDynamicStopLoss 3 ≤ getDynamicStopLoss 7 :=
  ⟨by norm_num, getDynamicStopLoss_monotone_bands.1 3 7 (by norm_num)⟩

/-- C6: `detectAnomalousPosition` implements the ordered first-match
rules of the spec over the latest balance (default 1000), and on balance
1000, notional 200, leverage 18 the effective-exposure rule yields a
high-severity anomaly. -/
theorem detectAnomalousPosition_rules :
    (∀ (s : Store) (sym : String) (n l : ℚ),
      ((detectAnomalousPosition s sym n l).isAnomalous,
       (detectAnomalousPosition s sym n l).severity) =
        positionRuleSpec (latestBalanceOpt s) n l) ∧
    ((detectAnomalousPosition storeBalance1000 "BTC" 200 18).isAnomalous = true ∧
     (detectAnomalousPosition storeBalance1000 "BTC" 200 18).severity = "high" ∧
     (200 : ℚ) / 1000 * 100 * 18 > 200) := by
  constructor
  · intro s sym n l
    unfold detectAnomalousPosition positionRuleSpec latestTotalValue
      latestBalanceOpt
    cases hb : latestBy (fun r => r.timestamp) s.accountHistory with
    | none => simp only [Option.map_none', Option.getD_none]; split_ifs <;> rfl
    | some row => simp only [Option.map_some', Option.getD_some]; split_ifs <;> rfl
  · refine ⟨?_, ?_, by norm_num⟩ <;>
      norm_num [detectAnomalousPosition, latestTotalValue, latestBy,
        storeBalance1000]

/-! ### Helper lemmas for the at-most-one-active invariant (C1) -/

theorem latestBy_none {α : Type} {f : α → Int} {l : List α}
    (h : latestBy f l = none) : l = [] := by
  cases l with
  | nil => rfl
  | cons a as =>
    exfalso
    revert h
    simp only [latestBy]
    cases latestBy f as with
    | none => simp
    | some b => split <;> first | (simp; done) | (split <;> simp)

theorem demote_filter_active (log : List CBRecord) :
    (demote log).filter (fun r => decide (r.status = CBStatus.active)) = [] := by
  induction log with
  | nil => rfl
  | cons r rest ih =>
    simp only [demote, List.map_cons, List.filter_cons] at *
    by_cases h : r.status = CBStatus.active
    · simp [h, ih]
    · simp [h, ih]

theorem countActive_demoteStore (s : Store) : countActive (demoteStore s) = 0 := by
  simp [countActive, demoteStore, demote_filter_active]

theorem countActive_record (now : Int) (re : String) (rt : Int) (sev : Nat)
    (tt : String) (s : Store) :
    countActive (recordCircuitBreaker now re rt sev tt s) = 1 := by
  simp [countActive, recordCircuitBreaker, List.filter_append,
    demote_filter_active]

theorem resetMap_filter_active (log : List CBRecord) :
    (log.map (fun r => if r.status = CBStatus.active then
      { r with status := CBStatus.manuallyReset } else r)).filter
        (fun r => decide (r.status = CBStatus.active)) = [] := by
  induction log with
  | nil => rfl
  | cons r rest ih =>
    simp only [List.map_cons, List.filter_cons] at *
    by_cases h : r.status = CBStatus.active
    · simp [h, ih]
    · simp [h, ih]

theorem countActive_reset (s : Store) : countActive (resetCircuitBreaker s).2 = 0 := by
  simp [countActive, resetCircuitBreaker, resetMap_filter_active]

theorem latestActive_none_count (s : Store) (h : latestActive s = none) :
    countActive s = 0 := by
  unfold latestActive at h
  simp [countActive, latestBy_none h]

theorem getActive_some_snd (now : Int) (s : Store) :
    (getActiveCircuitBreaker now s).1 ≠ none →
      (getActiveCircuitBreaker now s).2 = s := by
  unfold getActiveCircuitBreaker
  split
  · intro _; rfl
  · split
    · intro _; rfl
    · split
      · intro h; exact absurd rfl h
      · intro _; rfl

theorem getActive_none_count (now : Int) (s : Store) :
    (getActiveCircuitBreaker now s).1 = none →
      countActive (getActiveCircuitBreaker now s).2 = 0 := by
  unfold getActiveCircuitBreaker
  split
  · rename_i heq
    intro _
    exact latestActive_none_count s heq
  · split
    · intro h; simp at h
    · split
      · intro _; exact countActive_demoteStore s
      · intro h; simp at h

theorem singleLoss_active_le (now : Int) (c : CooldownInfo) (e : Nat)
    (tb tm : ℚ) (s : Store) (h : countActive s ≤ 1) :
    countActive (singleLossCheck now c e tb tm s).2 ≤ 1 := by
  simp only [singleLossCheck, noTriggerResult]
  split
  · split_ifs <;> exact h
  · split_ifs <;> first | exact h | simp [countActive_record]

theorem consecutiveLoss_active_le (now : Int) (c : CooldownInfo) (e : Nat)
    (tb tm : ℚ) (s : Store) (h : countActive s ≤ 1) :
    countActive (consecutiveLossCheck now c e tb tm s).2 ≤ 1 := by
  simp only [consecutiveLossCheck]
  split_ifs <;>
    first
      | exact singleLoss_active_le now c e tb tm s h
      | simp [countActive_record]

theorem evalLoss_active_le (now todayStart : Int) (c : CooldownInfo) (e : Nat)
    (s : Store) (h : countActive s ≤ 1) :
    countActive (evalLossTriggers now todayStart c e s).2 ≤ 1 := by
  simp only [evalLossTriggers]
  split_ifs <;>
    first
      | exact consecutiveLoss_active_le now c e _ _ s h
      | simp [countActive_record]

theorem evalTriggers_active_le (now todayStart : Int) (s : Store)
    (h : countActive s ≤ 1) :
    countActive (evalTriggers now todayStart s).2 ≤ 1 := by
  simp only [evalTriggers]
  split
  · exact h
  · split
    · split
      · split
        · exact h
        · exact evalLoss_active_le now todayStart _ _ s h
      · exact evalLoss_active_le now todayStart _ _ s h
    · exact evalLoss_active_le now todayStart _ _ s h

theorem check_active_le (now todayStart : Int) (s : Store)
    (h : countActive s ≤ 1) :
    countActive (checkCircuitBreaker now todayStart s).2 ≤ 1 := by
  simp only [checkCircuitBreaker]
  cases hob : (getActiveCircuitBreaker now s).1 with
  | some st =>
    have hsnd : (getActiveCircuitBreaker now s).2 = s :=
      getActive_some_snd now s (by rw [hob]; simp)
    simpa [hsnd] using h
  | none =>
    have hcnt : countActive (getActiveCircuitBreaker now s).2 = 0 :=
      getActive_none_count now s hob
    exact evalTriggers_active_le now todayStart _ (by rw [hcnt]; norm_num)

/-- C1: starting from a store with at most one active row, any sequence
of `checkCircuitBreaker` (including its internal `recordCircuitBreaker`)
and `resetCircuitBreaker` calls leaves at most one active row in
`circuit_breaker_log`. -/
theorem atMostOneActive_invariant :
    ∀ (ops : List RiskOp) (s : Store), atMostOneActive s →
      atMostOneActive (runOps ops s) := by
  intro ops
  induction ops with
  | nil => intro s h; exact h
  | cons op rest ih =>
    intro s h
    cases op with
    | check n t => exact ih _ (check_active_le n t s h)
    | reset =>
      refine ih _ ?_
      unfold atMostOneActive
      rw [countActive_reset]
      norm_num

/-- C1 witness: the invariant applied to a concrete two-operation run
from a store holding one active row. -/
theorem atMostOneActive_invariant_witness :
    atMostOneActive storeActiveW ∧
      atMostOneActive (runOps [RiskOp.check 36000000 0, RiskOp.reset]
        storeActiveW) := by
  have h0 : atMostOneActive storeActiveW := by
    simp [atMostOneActive, countActive, storeActiveW]
  exact ⟨h0, atMostOneActive_invariant _ storeActiveW h0⟩

/-! ### Helper lemmas for the active-breaker check (C2, C9) -/

theorem sevOr1_of_pos {n : Nat} (h : 1 ≤ n) : sevOr1 n = n := by
  unfold sevOr1
  split <;> omega

theorem singleLoss_no_fire (now : Int) (c : CooldownInfo) (e : Nat)
    (tb tm : ℚ) (s : Store)
    (h5 : (match (closeTradesDesc s).head? with
      | some t => decide (t.pnl / tb * 100 < -3 * tm)
      | none => false) = false) :
    (singleLossCheck now c e tb tm s).1.shouldHalt = false ∧
      (singleLossCheck now c e tb tm s).2 = s := by
  simp only [singleLossCheck, noTriggerResult]
  split
  · split_ifs <;> exact ⟨rfl, rfl⟩
  · rename_i t heq
    rw [heq] at h5
    simp only [decide_eq_false_iff_not] at h5
    rw [if_neg h5]
    split_ifs <;> exact ⟨rfl, rfl⟩

theorem consecutive_no_fire (now : Int) (c : CooldownInfo) (e : Nat)
    (tb tm : ℚ) (s : Store)
    (h4 : (decide (((closeTradesDesc s).take 5).length ≥ 5) &&
      (((closeTradesDesc s).take 5).all (fun t => decide (t.pnl < 0))) &&
      decide ((((now - (match ((closeTradesDesc s).take 5)[4]? with
        | some t => t.timestamp
        | none => 0) : Int) : ℚ) / 3600000) ≤ 4)) = false)
    (h5 : (match (closeTradesDesc s).head? with
      | some t => decide (t.pnl / tb * 100 < -3 * tm)
      | none => false) = false) :
    (consecutiveLossCheck now c e tb tm s).1.shouldHalt = false ∧
      (consecutiveLossCheck now c e tb tm s).2 = s := by
  simp only [consecutiveLossCheck]
  split_ifs with hlen hcond
  · exfalso
    rw [decide_eq_true hlen, hcond.1, decide_eq_true hcond.2] at h4
    simp at h4
  · exact singleLoss_no_fire now c e tb tm s h5
  · exact singleLoss_no_fire now c e tb tm s h5

theorem evalLoss_no_fire (now todayStart : Int) (c : CooldownInfo) (e : Nat)
    (s : Store)
    (h1 : decide (sumPnlSince todayStart s / latestTotalValue s * 100 <
      -15 * (if c.inCooldown = true then (1:ℚ)/2 else 1)) = false)
    (h2 : decide (sumPnlSince (now - msPerHour) s / latestTotalValue s * 100 <
      -5 * (if c.inCooldown = true then (1:ℚ)/2 else 1)) = false)
    (h3 : decide (sumPnlSince (now - 4 * msPerHour) s / latestTotalValue s * 100 <
      -8 * (if c.inCooldown = true then (1:ℚ)/2 else 1)) = false)
    (h4 : (decide (((closeTradesDesc s).take 5).length ≥ 5) &&
      (((closeTradesDesc s).take 5).all (fun t => decide (t.pnl < 0))) &&
      decide ((((now - (match ((closeTradesDesc s).take 5)[4]? with
        | some t => t.timestamp
        | none => 0) : Int) : ℚ) / 3600000) ≤ 4)) = false)
    (h5 : (match (closeTradesDesc s).head? with
      | some t => decide (t.pnl / latestTotalValue s * 100 <
          -3 * (if c.inCooldown = true then (1:ℚ)/2 else 1))
      | none => false) = false) :
    (evalLossTriggers now todayStart c e s).1.shouldHalt = false ∧
      (evalLossTriggers now todayStart c e s).2 = s := by
  simp only [decide_eq_false_iff_not] at h1 h2 h3
  simp only [evalLossTriggers]
  rw [if_neg h1, if_neg h2, if_neg h3]
  exact consecutive_no_fire now c e (latestTotalValue s) _ s h4 h5

theorem evalTriggers_no_fire (now todayStart : Int) (s : Store)
    (hnf : triggersFire now todayStart s = false) :
    (evalTriggers now todayStart s).1.shouldHalt = false ∧
      (evalTriggers now todayStart s).2 = s := by
  simp only [triggersFire, Bool.or_eq_false_iff] at hnf
  obtain ⟨⟨⟨⟨h1, h2⟩, h3⟩, h4⟩, h5⟩ := hnf
  simp only [evalTriggers]
  split
  · exact ⟨rfl, rfl⟩
  · split
    · split
      · split
        · exact ⟨rfl, rfl⟩
        · exact evalLoss_no_fire now todayStart _ _ s h1 h2 h3 h4 h5
      · exact evalLoss_no_fire now todayStart _ _ s h1 h2 h3 h4 h5
    · exact evalLoss_no_fire now todayStart _ _ s h1 h2 h3 h4 h5

/-- C2: with a parsable `resume_at` on the latest active record, the
check halts with that record reason, resume time and severity level and
mutates nothing while `now < resumeAt`; once `now ≥ resumeAt` the same
call demotes the active rows to expired and continues with the trigger
evaluation on the demoted store, so absent any firing trigger it reports
`shouldHalt = false`. -/
theorem checkCircuitBreaker_active_behavior (now todayStart : Int)
    (s : Store) (r : CBRecord) (rt : Int) (hact : latestActive s = some r)
    (hrt : r.resumeAt = some rt) (hsev : 1 ≤ r.severityLevel) :
    (now < rt →
      checkCircuitBreaker now todayStart s =
        ({ shouldHalt := true, reason := some r.reason,
           resumeTime := some rt,
           severityLevel := some r.severityLevel }, s)) ∧
    (rt ≤ now →
      checkCircuitBreaker now todayStart s =
        evalTriggers now todayStart (demoteStore s) ∧
      countActive (demoteStore s) = 0 ∧
      (triggersFire now todayStart (demoteStore s) = false →
        (checkCircuitBreaker now todayStart s).1.shouldHalt = false)) := by
  constructor
  · intro hlt
    have hga : getActiveCircuitBreaker now s =
        (some { shouldHalt := true, reason := some r.reason,
                resumeTime := some rt,
                severityLevel := some (sevOr1 r.severityLevel) }, s) := by
      simp only [getActiveCircuitBreaker, hact, hrt]
      rw [if_neg (not_le.mpr hlt)]
    simp only [checkCircuitBreaker, hga, sevOr1_of_pos hsev]
  · intro hle
    have hga : getActiveCircuitBreaker now s = (none, demoteStore s) := by
      simp only [getActiveCircuitBreaker, hact, hrt]
      rw [if_pos hle]
    have heval : checkCircuitBreaker now todayStart s =
        evalTriggers now todayStart (demoteStore s) := by
      simp only [checkCircuitBreaker, hga]
    refine ⟨heval, countActive_demoteStore s, ?_⟩
    intro hnf
    rw [heval]
    exact (evalTriggers_no_fire now todayStart (demoteStore s) hnf).1

/-- C2 witness: the halting half applied to a concrete store whose active
record resumes at t=100, checked at t=50. -/
theorem checkCircuitBreaker_active_behavior_witness :
    checkCircuitBreaker 50 0 storeActiveW =
      ({ shouldHalt := true, reason := some "daily loss breaker",
         resumeTime := some 100, severityLevel := some 2 }, storeActiveW) :=
  (checkCircuitBreaker_active_behavior 50 0 storeActiveW
    { reason := "daily loss breaker", triggeredAt := 10,
      resumeAt := some 100, status := CBStatus.active, severityLevel := 2,
      cooldownUntil := some (some 500), triggerType := "daily_loss" }
    100 rfl rfl (by norm_num)).1 (by norm_num)

/-- C9: an unparsable `resume_at` on the latest active record keeps the
breaker in force: the check returns `shouldHalt = true` with the record
reason and a fallback resume time two hours from now, without mutating
the store. -/
theorem checkCircuitBreaker_malformed_resume (now todayStart : Int)
    (s : Store) (r : CBRecord) (hact : latestActive s = some r)
    (hrt : r.resumeAt = none) :
    checkCircuitBreaker now todayStart s =
      ({ shouldHalt := true, reason := some r.reason,
         resumeTime := some (now + 2 * msPerHour),
         severityLevel := some (sevOr1 r.severityLevel) }, s) := by
  have hga : getActiveCircuitBreaker now s =
      (some { shouldHalt := true, reason := some r.reason,
              resumeTime := some (now + 2 * msPerHour),
              severityLevel := some (sevOr1 r.severityLevel) }, s) := by
    simp only [getActiveCircuitBreaker, hact, hrt]
  simp only [checkCircuitBreaker, hga]

/-- C9 witness: the malformed-timestamp fallback on a concrete store. -/
theorem checkCircuitBreaker_malformed_resume_witness :
    checkCircuitBreaker 36000000 0 storeMalformedW =
      ({ shouldHalt := true, reason := some "stuck breaker",
         resumeTime := some (36000000 + 2 * msPerHour),
         severityLevel := some 3 }, storeMalformedW) := by
  have h := checkCircuitBreaker_malformed_resume 36000000 0 storeMalformedW
    { reason := "stuck breaker", triggeredAt := 10, resumeAt := none,
      status := CBStatus.active, severityLevel := 3, cooldownUntil := none,
      triggerType := "hourly_loss" } rfl rfl
  simpa [sevOr1] using h

/-! ### Store-preservation lemmas and the risk gate (C7, C10) -/

theorem getActive_tables (now : Int) (s : Store) :
    (getActiveCircuitBreaker now s).2.trades = s.trades ∧
    (getActiveCircuitBreaker now s).2.accountHistory = s.accountHistory ∧
    (getActiveCircuitBreaker now s).2.signals = s.signals := by
  unfold getActiveCircuitBreaker
  split
  · exact ⟨rfl, rfl, rfl⟩
  · split
    · exact ⟨rfl, rfl, rfl⟩
    · split
      · exact ⟨rfl, rfl, rfl⟩
      · exact ⟨rfl, rfl, rfl⟩

theorem evalLoss_tables (now todayStart : Int) (c : CooldownInfo) (e : Nat)
    (s : Store) :
    (evalLossTriggers now todayStart c e s).2.trades = s.trades ∧
    (evalLossTriggers now todayStart c e s).2.accountHistory = s.accountHistory ∧
    (evalLossTriggers now todayStart c e s).2.signals = s.signals := by
  simp only [evalLossTriggers, consecutiveLossCheck, singleLossCheck,
    noTriggerResult, recordCircuitBreaker]
  repeat' split
  all_goals exact ⟨rfl, rfl, rfl⟩

theorem evalTriggers_tables (now todayStart : Int) (s : Store) :
    (evalTriggers now todayStart s).2.trades = s.trades ∧
    (evalTriggers now todayStart s).2.accountHistory = s.accountHistory ∧
    (evalTriggers now todayStart s).2.signals = s.signals := by
  simp only [evalTriggers]
  repeat' split
  all_goals
    first
      | exact ⟨rfl, rfl, rfl⟩
      | exact evalLoss_tables now todayStart _ _ s

theorem check_tables (now todayStart : Int) (s : Store) :
    (checkCircuitBreaker now todayStart s).2.trades = s.trades ∧
    (checkCircuitBreaker now todayStart s).2.accountHistory = s.accountHistory ∧
    (checkCircuitBreaker now todayStart s).2.signals = s.signals := by
  simp only [checkCircuitBreaker]
  cases hob : (getActiveCircuitBreaker now s).1 with
  | some st => exact getActive_tables now s
  | none =>
    have h1 := getActive_tables now s
    have h2 := evalTriggers_tables now todayStart (getActiveCircuitBreaker now s).2
    exact ⟨h2.1.trans h1.1, h2.2.1.trans h1.2.1, h2.2.2.trans h1.2.2⟩

theorem detectAnomalousPosition_congr (s1 s2 : Store)
    (h : s1.accountHistory = s2.accountHistory) (sym : String) (n l : ℚ) :
    detectAnomalousPosition s1 sym n l = detectAnomalousPosition s2 sym n l := by
  unfold detectAnomalousPosition latestTotalValue
  rw [h]

theorem detectFrequentTrading_congr (now : Int) (s1 s2 : Store)
    (h : s1.trades = s2.trades) (sym : String) :
    detectFrequentTrading now s1 sym = detectFrequentTrading now s2 sym := by
  unfold detectFrequentTrading
  rw [h]

theorem detectCorrelationRisk_congr (sqrtFn : ℚ → ℚ) (s1 s2 : Store)
    (h : s1.signals = s2.signals) (a b : String) (ps : List Position) :
    detectCorrelationRisk sqrtFn s1 a b ps =
      detectCorrelationRisk sqrtFn s2 a b ps := by
  induction ps with
  | nil => rfl
  | cons p rest ih => simp only [detectCorrelationRisk, h, ih]

/-- C7: `comprehensiveRiskCheck` approves exactly when the blockers list
is empty; the blockers list holds exactly a high-severity position
anomaly, while medium and low position anomalies, frequency anomalies and
correlation anomalies only warn; the circuit-breaker verdict contributes
nothing to either list. -/
theorem comprehensiveRiskCheck_gate (sqrtFn : ℚ → ℚ) (now todayStart : Int)
    (symbol side : String) (amountUsdt leverage : ℚ)
    (existingPositions : List Position) (s : Store) :
    ((comprehensiveRiskCheck sqrtFn now todayStart symbol side amountUsdt
        leverage existingPositions s).1.approved = true ↔
      (comprehensiveRiskCheck sqrtFn now todayStart symbol side amountUsdt
        leverage existingPositions s).1.blockers = []) ∧
    (comprehensiveRiskCheck sqrtFn now todayStart symbol side amountUsdt
        leverage existingPositions s).1.blockers =
      (if (detectAnomalousPosition s symbol amountUsdt leverage).isAnomalous ∧
          (detectAnomalousPosition s symbol amountUsdt leverage).severity = "high"
        then [(detectAnomalousPosition s symbol amountUsdt leverage).reason.getD ""]
        else []) ∧
    (comprehensiveRiskCheck sqrtFn now todayStart symbol side amountUsdt
        leverage existingPositions s).1.warnings =
      (if (detectAnomalousPosition s symbol amountUsdt leverage).isAnomalous ∧
          (detectAnomalousPosition s symbol amountUsdt leverage).severity ≠ "high"
        then [(detectAnomalousPosition s symbol amountUsdt leverage).reason.getD ""]
        else []) ++
      (if (detectFrequentTrading now s symbol).isAnomalous then
        [(detectFrequentTrading now s symbol).reason.getD ""] else []) ++
      (if (detectCorrelationRisk sqrtFn s symbol side
          existingPositions).isAnomalous then
        [(detectCorrelationRisk sqrtFn s symbol side
          existingPositions).reason.getD ""] else []) := by
  have hT := check_tables now todayStart s
  have hpa := detectAnomalousPosition_congr
    (checkCircuitBreaker now todayStart s).2 s hT.2.1 symbol amountUsdt
    leverage
  have hfa := detectFrequentTrading_congr now
    (checkCircuitBreaker now todayStart s).2 s hT.1 symbol
  have hca := detectCorrelationRisk_congr sqrtFn
    (checkCircuitBreaker now todayStart s).2 s hT.2.2 symbol side
    existingPositions
  refine ⟨?_, ?_, ?_⟩
  · simp only [comprehensiveRiskCheck, hpa, hfa, hca]
    split_ifs <;> simp
  · simp only [comprehensiveRiskCheck, hpa, hfa, hca]
  · simp only [comprehensiveRiskCheck, hpa, hfa, hca]

/-! ### Concrete circuit-breaker runs (C3, C4, C10) -/

/-- C3 counterexample: in cooldown, with a daily loss of exactly -7.5
percent of the 1000 balance (half the -15 base threshold), the check does
NOT trigger a breaker: the comparison is strict, so `shouldHalt` is false
and no active row is created. -/
theorem cooldownExactHalf_no_trigger :
    (isInCooldownPeriod 36000000 storeCooldownExact).inCooldown = true ∧
    sumPnlSince 0 storeCooldownExact / latestTotalValue storeCooldownExact
      * 100 = -15/2 ∧
    (checkCircuitBreaker 36000000 0 storeCooldownExact).1.shouldHalt = false ∧
    countActive (checkCircuitBreaker 36000000 0 storeCooldownExact).2 = 0 := by
  refine ⟨?_, ?_, ?_, ?_⟩ <;>
    norm_num +decide [checkCircuitBreaker, getActiveCircuitBreaker,
      latestActive, latestBy, evalTriggers, isInCooldownPeriod,
      getCurrentSeverityLevel, sevOr1, evalLossTriggers,
      consecutiveLossCheck, singleLossCheck, noTriggerResult,
      latestTotalValue, sumPnlSince, closeTradesDesc, sortDescBy,
      insertDescBy, msPerHour, countActive, storeCooldownExact, List.filter]

/-- C3 amended: in cooldown the daily-loss threshold is halved to -7.5,
and a daily loss strictly beyond it (-8 percent here) triggers a
daily-loss breaker, while the same -8 percent loss outside cooldown
triggers nothing. -/
theorem cooldownHalvesDailyThreshold :
    (isInCooldownPeriod 36000000 storeCooldownOver).inCooldown = true ∧
    (checkCircuitBreaker 36000000 0 storeCooldownOver).1.shouldHalt = true ∧
    activeTriggerTypes (checkCircuitBreaker 36000000 0 storeCooldownOver).2 =
      ["daily_loss"] ∧
    (isInCooldownPeriod 36000000 storeNoCooldownOver).inCooldown = false ∧
    (checkCircuitBreaker 36000000 0 storeNoCooldownOver).1.shouldHalt = false ∧
    countActive (checkCircuitBreaker 36000000 0 storeNoCooldownOver).2 = 0 := by
  refine ⟨?_, ?_, ?_, ?_, ?_, ?_⟩ <;>
    norm_num +decide [checkCircuitBreaker, getActiveCircuitBreaker,
      latestActive, latestBy, evalTriggers, isInCooldownPeriod,
      getCurrentSeverityLevel, sevOr1, evalLossTriggers,
      consecutiveLossCheck, singleLossCheck, noTriggerResult,
      latestTotalValue, sumPnlSince, closeTradesDesc, sortDescBy,
      insertDescBy, msPerHour, countActive, activeTriggerTypes,
      recordCircuitBreaker, demote, storeCooldownOver, storeCooldownExact,
      storeNoCooldownOver, List.filter]

/-- C4: in cooldown, with the three most recent close trades all losses
inside the 4-hour window (and two older wins), the consecutive-loss
breaker does NOT fire: the code computes `requiredLossCount = 3` but
still requires all five fetched trades to be losses, contradicting its
own comment. -/
theorem cooldownThreeLosses_no_trigger :
    (isInCooldownPeriod 36000000 storeCooldownThreeLosses).inCooldown = true ∧
    ((closeTradesDesc storeCooldownThreeLosses).take 3).all
      (fun t => decide (t.pnl < 0)) = true ∧
    ((closeTradesDesc storeCooldownThreeLosses).take 3).all
      (fun t => decide (t.timestamp ≥ 36000000 - 4 * msPerHour)) = true ∧
    (checkCircuitBreaker 36000000 0 storeCooldownThreeLosses).1.shouldHalt
      = false ∧
    countActive (checkCircuitBreaker 36000000 0 storeCooldownThreeLosses).2
      = 0 := by
  refine ⟨?_, ?_, ?_, ?_, ?_⟩ <;>
    norm_num +decide [checkCircuitBreaker, getActiveCircuitBreaker,
      latestActive, latestBy, evalTriggers, isInCooldownPeriod,
      getCurrentSeverityLevel, sevOr1, evalLossTriggers,
      consecutiveLossCheck, singleLossCheck, noTriggerResult,
      latestTotalValue, sumPnlSince, closeTradesDesc, sortDescBy,
      insertDescBy, msPerHour, countActive, storeCooldownThreeLosses,
      storeCooldownExact, List.filter]

/-- C10: `comprehensiveRiskCheck` is not read-only: on a store with no
breaker rows and a fresh -20 percent daily loss, a single call returns
`approved = true` with no blockers while its inner `checkCircuitBreaker`
(which would report a halt) creates a new active daily-loss row. -/
theorem comprehensiveRiskCheck_mutates :
    countActive storeFreshLoss = 0 ∧
    (comprehensiveRiskCheck id 36000000 0 "BTC" "long" 10 1 []
      storeFreshLoss).1.approved = true ∧
    (comprehensiveRiskCheck id 36000000 0 "BTC" "long" 10 1 []
      storeFreshLoss).1.blockers = [] ∧
    (checkCircuitBreaker 36000000 0 storeFreshLoss).1.shouldHalt = true ∧
    countActive (comprehensiveRiskCheck id 36000000 0 "BTC" "long" 10 1 []
      storeFreshLoss).2 = 1 ∧
    activeTriggerTypes (comprehensiveRiskCheck id 36000000 0 "BTC" "long" 10 1
      [] storeFreshLoss).2 = ["daily_loss"] := by
  refine ⟨?_, ?_, ?_, ?_, ?_, ?_⟩ <;>
    norm_num +decide [comprehensiveRiskCheck, detectAnomalousPosition,
      detectFrequentTrading, detectCorrelationRisk, checkCircuitBreaker,
      getActiveCircuitBreaker, latestActive, latestBy, evalTriggers,
      isInCooldownPeriod, getCurrentSeverityLevel, sevOr1,
      evalLossTriggers, consecutiveLossCheck, singleLossCheck,
      noTriggerResult, latestTotalValue, sumPnlSince, closeTradesDesc,
      sortDescBy, insertDescBy, msPerHour, countActive, activeTriggerTypes,
      recordCircuitBreaker, demote, storeFreshLoss, List.filter]

/-! ### Correlation (C8) -/

theorem fold_stats (m1 m2 : ℚ) (l : List (ℚ × ℚ)) : ∀ a b c : ℚ,
    l.foldl (fun (acc : ℚ × ℚ × ℚ) (pq : ℚ × ℚ) =>
      (acc.1 + (pq.1 - m1) * (pq.2 - m2),
       acc.2.1 + (pq.1 - m1) * (pq.1 - m1),
       acc.2.2 + (pq.2 - m2) * (pq.2 - m2))) (a, b, c) =
    (a + (l.map (fun pq => (pq.1 - m1) * (pq.2 - m2))).sum,
     b + (l.map (fun pq => (pq.1 - m1) * (pq.1 - m1))).sum,
     c + (l.map (fun pq => (pq.2 - m2) * (pq.2 - m2))).sum) := by
  induction l with
  | nil => intro a b c; simp
  | cons p ps ih =>
    intro a b c
    simp only [List.foldl_cons, List.map_cons, List.sum_cons, ih,
      Prod.mk.injEq]
    refine ⟨by ring, by ring, by ring⟩

theorem zip_fst_sq_sum (m : ℚ) (r1 r2 : List ℚ)
    (h : r1.length ≤ r2.length) :
    ((r1.zip r2).map (fun pq => (pq.1 - m) * (pq.1 - m))).sum =
      (r1.map (fun x => (x - m) * (x - m))).sum := by
  have hc : (fun pq : ℚ × ℚ => (pq.1 - m) * (pq.1 - m)) =
      (fun x => (x - m) * (x - m)) ∘ Prod.fst := rfl
  rw [hc, ← List.map_map, List.map_fst_zip r1 r2 h]

theorem zip_snd_sq_sum (m : ℚ) (r1 r2 : List ℚ)
    (h : r2.length ≤ r1.length) :
    ((r1.zip r2).map (fun pq => (pq.2 - m) * (pq.2 - m))).sum =
      (r2.map (fun y => (y - m) * (y - m))).sum := by
  have hc : (fun pq : ℚ × ℚ => (pq.2 - m) * (pq.2 - m)) =
      (fun y => (y - m) * (y - m)) ∘ Prod.snd := rfl
  rw [hc, ← List.map_map, List.map_snd_zip r1 r2 h]

theorem sum_sq_nonneg (m : ℚ) (l : List ℚ) :
    0 ≤ (l.map (fun x => (x - m) * (x - m))).sum := by
  apply List.sum_nonneg
  intro x hx
  simp only [List.mem_map] at hx
  obtain ⟨y, _, rfl⟩ := hx
  exact mul_self_nonneg _

/-- C8: `calculateCorrelation` implements the guarded Pearson computation
of the spec: it returns 0 when either symbol has fewer than 30 price
observations, when fewer than 20 aligned returns exist, or when the
denominator (the product of the square roots of the two centered
sum-of-squares) is zero, and otherwise the Pearson coefficient of the
first n aligned period-over-period returns. The real square root is
abstracted as any function multiplicative on non-negative inputs. -/
theorem calculateCorrelation_spec (sqrtFn : ℚ → ℚ)
    (hmul : ∀ a b : ℚ, 0 ≤ a → 0 ≤ b → sqrtFn (a * b) = sqrtFn a * sqrtFn b)
    (prices1 prices2 : List ℚ) :
    calculateCorrelation sqrtFn prices1 prices2 =
      pearsonSpec sqrtFn prices1 prices2 := by
  simp only [calculateCorrelation, pearsonSpec]
  by_cases h1 : prices1.length < 30 ∨ prices2.length < 30
  · rw [if_pos h1, if_pos h1]
  · rw [if_neg h1, if_neg h1]
    by_cases h2 : min (sequentialReturns prices1).length
        (sequentialReturns prices2).length < 20
    · rw [if_pos h2, if_pos h2]
    · rw [if_neg h2, if_neg h2]
      have ht1 : (List.take (min (sequentialReturns prices1).length
          (sequentialReturns prices2).length)
          (sequentialReturns prices1)).length =
          min (sequentialReturns prices1).length
            (sequentialReturns prices2).length := by
        rw [List.length_take]
        exact min_eq_left (min_le_left _ _)
      have ht2 : (List.take (min (sequentialReturns prices1).length
          (sequentialReturns prices2).length)
          (sequentialReturns prices2)).length =
          min (sequentialReturns prices1).length
            (sequentialReturns prices2).length := by
        rw [List.length_take]
        exact min_eq_left (min_le_right _ _)
      rw [fold_stats]
      dsimp only
      rw [zip_fst_sq_sum _ _ _ (by rw [ht1, ht2]),
        zip_snd_sq_sum _ _ _ (by rw [ht1, ht2])]
      rw [zero_add, zero_add, zero_add,
        hmul _ _ (sum_sq_nonneg _ _) (sum_sq_nonneg _ _)]

/-- C8 witness: the theorem applied with the identity as the abstract
square root (which is multiplicative) on two 30-point constant series. -/
theorem calculateCorrelation_spec_witness :
    calculateCorrelation id (List.replicate 30 1) (List.replicate 30 1) =
      pearsonSpec id (List.replicate 30 1) (List.replicate 30 1) :=
  calculateCorrelation_spec id (fun _ _ _ _ => rfl) (List.replicate 30 1)
    (List.replicate 30 1)

end RiskControl
